import Mathlib

/-!
Shallow embedding of the core of `easy_graph` (src/ui/window.rs and
src/ui/chart.rs): the update-skip rate gate, the pixel buffer window,
the chart series buffers and the axis-range computation.

Modelling conventions:
* `f64` values are modelled as `ℚ`.  Every comparison appearing in the
  claims is far from a representation boundary, so the rational model
  agrees with the binary64 computation at all inputs used here.
  `f64::MAX` / `f64::MIN` are modelled by their exact values.
* Rust `NaN` (used only as the "undefined sample" marker in the render
  mapping) is modelled by `none : Option ℚ`.
* Rust panics are modelled as an `Option String` outcome paired with the
  state at the panic point (a panic unwinds before any later mutation).
* Machine-integer casts are explicit: `usize as i32` truncates to the low
  32 bits (two's complement) and `usize` subtraction wraps modulo `2^64`
  (release-profile semantics; the debug profile would panic instead, the
  theorems note where this matters).
* The external window backend (`minifb::Window`) is modelled by its
  observable open/closed flag plus a counter of `update_with_buffer`
  calls; the external drawing backend (`plotters`) is an opaque
  transformation of the byte buffer.
-/

namespace EasyGraph

/-- Exact value of `f64::MAX`, the largest finite IEEE-754 binary64 number. -/
def f64MAX : ℚ := 2 ^ 1024 - 2 ^ 971

/-- Exact value of `f64::MIN`, the most negative finite binary64 number. -/
def f64MIN : ℚ := -f64MAX

/-- Rust truncating cast `usize as i32`: keep the low 32 bits, reinterpret
as two's complement. -/
def toI32 (n : Nat) : Int :=
  let m : Nat := n % 2 ^ 32
  if m < 2 ^ 31 then (m : Int) else (m : Int) - 2 ^ 32

/-- Release-profile wrap of an `i32` arithmetic result into the `i32` range. -/
def wrapI32 (z : Int) : Int := (z + 2 ^ 31) % 2 ^ 32 - 2 ^ 31

/-- Release-profile wrapping `usize` subtraction `a - b` (modulo `2^64`). -/
def subUsize (a b : Nat) : Nat := (a % 2 ^ 64 + (2 ^ 64 - b % 2 ^ 64)) % 2 ^ 64

/-!
## `UpdateSkip` (window.rs lines 269-317)

The skip throttle.  `target_rate` is the optional target interval in
seconds (`Duration::as_secs_f64`), `prev_time` the timestamp of the last
admitted update.  The constructor `UpdateSkip::from` initialises
`prev_time` to `0.0`.
-/

structure UpdateSkip where
  target_rate : Option ℚ
  prev_time : ℚ
  deriving DecidableEq

namespace UpdateSkip

/-- Constructor `UpdateSkip::from(dur)`: `prev_time` starts at `0.0`. -/
def fromRate (dur : Option ℚ) : UpdateSkip :=
  { target_rate := dur, prev_time := 0 }

/-- `UpdateSkip::update`, with the sampled wall-clock time passed in as
`now` (the source calls `Self::time_now()`, seconds since the Unix epoch).
Returns whether the update is admitted, together with the new gate state. -/
def update (g : UpdateSkip) (now : ℚ) : Bool × UpdateSkip :=
  match g.target_rate with
  | some rate =>
      if now - g.prev_time ≥ rate then (true, { g with prev_time := now })
      else (false, g)
  | none => (true, g)

/-- Runs the gate over a list of sampled timestamps, collecting the
admit/reject decision of each call. -/
def run (g : UpdateSkip) : List ℚ → List Bool
  | [] => []
  | t :: ts =>
      let r := g.update t
      r.1 :: run r.2 ts

end UpdateSkip

/-!
## `BufferWindow` (window.rs lines 147-267)

The pixel surface.  The external `minifb::Window` is modelled by its
observable open/closed state plus a counter of `update_with_buffer`
calls.  `buffer_u8` is the per-channel byte buffer (3 bytes per pixel),
`buffer_u32` the packed buffer (one word per pixel).
-/

/-- Rust slice method `chunks(3)`: splits a byte list into consecutive
triples.  A ragged tail shorter than 3 is dropped (the source indexes
`rgb[0..3]` of each chunk; the byte buffer always has length `3*w*h`, so
no ragged tail occurs in the program). -/
def chunks3 : List Nat → List (Nat × Nat × Nat)
  | r :: g :: b :: rest => (r, g, b) :: chunks3 rest
  | _ => []

/-- `BufferWindow::from_u8arr_rgb`: pack one `(r,g,b)` byte triple into a
32-bit word `(r<<16)|(g<<8)|b`. -/
def from_u8arr_rgb (r g b : Nat) : Nat :=
  Nat.lor (Nat.lor (Nat.shiftLeft r 16) (Nat.shiftLeft g 8)) b

/-- Decode a packed word back into its three channel bytes (the inverse
direction used to state losslessness of the packing). -/
def unpack_rgb (w : Nat) : Nat × Nat × Nat :=
  (w / 2 ^ 16 % 2 ^ 8, w / 2 ^ 8 % 2 ^ 8, w % 2 ^ 8)

/-- `BufferWindow::transfer_buffer`: `buffer_u8.chunks(3).zip(&mut
buffer_u32)` writes the packed word of each byte triple; entries of the
old packed buffer beyond the zip length are left as they were. -/
def transfer_buffer (b8 b32 : List Nat) : List Nat :=
  List.zipWith (fun c _ => from_u8arr_rgb c.1 c.2.1 c.2.2) (chunks3 b8) b32
    ++ b32.drop (chunks3 b8).length

structure BufferWindow where
  /-- `minifb::Window::is_open()` of the external backend. -/
  is_open : Bool
  buffer_u8 : List Nat
  buffer_u32 : List Nat
  dim : Nat × Nat
  fps_skip : UpdateSkip
  /-- Count of `update_with_buffer` calls made to the external backend. -/
  update_calls : Nat
  deriving DecidableEq

namespace BufferWindow

/-- `BufferWindow::draw`: only when the backend is open and the skip gate
admits, run the drawing closure on the byte buffer, re-pack it into the
packed buffer and hand the packed buffer to the backend.  The external
drawing closure is modelled as an opaque transformation `draw_fn` of the
byte buffer; `now` is the wall-clock time the gate samples. -/
def draw (w : BufferWindow) (now : ℚ) (draw_fn : List Nat → List Nat) :
    BufferWindow :=
  if w.is_open then
    let r := w.fps_skip.update now
    if r.1 then
      let b8 := draw_fn w.buffer_u8
      let b32 := transfer_buffer b8 w.buffer_u32
      { w with
        buffer_u8 := b8
        buffer_u32 := b32
        fps_skip := r.2
        update_calls := w.update_calls + 1 }
    else { w with fps_skip := r.2 }
  else w

end BufferWindow

/-!
## `Series` (chart.rs lines 203-265)
-/

inductive SeriesType where
  | Point : SeriesType
  | Line : SeriesType
  deriving DecidableEq

structure Series where
  name : String
  color : Nat × Nat × Nat
  series_type : SeriesType
  data : List (ℚ × ℚ)
  deriving DecidableEq

namespace Series

/-- `Series::push`: append one sample at the back. -/
def push (s : Series) (xy : ℚ × ℚ) : Series :=
  { s with data := s.data ++ [xy] }

/-- `Series::drop_front`: `let mut drop = self.data.len() as i32 -
targ_len as i32;` then pop from the front while `drop > 0`.  Both casts
truncate to `i32`; the `i32` subtraction wraps on overflow
(release-profile semantics). -/
def drop_front (s : Series) (targ_len : Nat) : Series :=
  let d : Int := wrapI32 (toI32 s.data.length - toI32 targ_len)
  { s with data := s.data.drop d.toNat }

/-- `Series::drop_back`: `let mut drop = self.data.len() - targ_len;`
(`usize` subtraction, wrapping in the release profile; the debug profile
panics on underflow) then pop from the back while `drop > 0`.  Popping an
empty deque is a no-op, so the result keeps the first `len - drop`
entries (`Nat` truncated subtraction). -/
def drop_back (s : Series) (targ_len : Nat) : Series :=
  let d : Nat := subUsize s.data.length targ_len
  { s with data := s.data.take (s.data.length - d) }

/-- `Series::clear`: drop all samples, keep name, colour and type. -/
def clear (s : Series) : Series :=
  { s with data := [] }

end Series

/-!
## `Chart` (chart.rs lines 267-556)
-/

structure AxisLimits where
  x_min : Option ℚ
  x_max : Option ℚ
  y_min : Option ℚ
  y_max : Option ℚ
  deriving DecidableEq

structure Chart where
  window : BufferWindow
  data : List Series
  data_limit : Option Nat
  x_label : String
  y_label : String
  x_scale : ℚ
  y_scale : ℚ
  y_log : Bool
  limits : AxisLimits
  deriving DecidableEq

namespace Chart

/-- `Chart::push_time_series`.  Returns the panic outcome (the source
panics on a series-count mismatch) paired with the chart state at the
return or panic point.  The length check happens only after the
early return on a closed window, and before any series is touched. -/
def push_time_series (c : Chart) (t : ℚ) (y : List ℚ) :
    Option String × Chart :=
  if c.window.is_open = false then (none, c)
  else if c.data.length ≠ y.length then
    (some "Length of y must be equaltu number of series!", c)
  else
    (none, { c with
      data := List.zipWith (fun ser v =>
        let ser := ser.push (t, v)
        match c.data_limit with
        | some lim => ser.drop_front lim
        | none => ser) c.data y })

/-- `Chart::push_xy`: index one series (`&mut self.data[index]` panics on
an out-of-range index), push, then enforce the data limit.  The source
performs no open/closed check here. -/
def push_xy (c : Chart) (index : Nat) (xy : ℚ × ℚ) :
    Option String × Chart :=
  if h : index < c.data.length then
    let ser := (c.data.get ⟨index, h⟩).push xy
    let ser := match c.data_limit with
      | some lim => ser.drop_front lim
      | none => ser
    (none, { c with data := c.data.set index ser })
  else (some "index out of bounds", c)

/-- `Chart::replace_series`: clear the indexed series, then push every
sample of `data` in order.  The source performs no open/closed check
here either. -/
def replace_series (c : Chart) (index : Nat) (samples : List (ℚ × ℚ)) :
    Option String × Chart :=
  if h : index < c.data.length then
    let ser := (c.data.get ⟨index, h⟩).clear
    let ser := samples.foldl Series.push ser
    (none, { c with data := c.data.set index ser })
  else (some "index out of bounds", c)

/-- `Chart::calc_axis_range` for one axis (`is_x` selects the
coordinate).  If both user limits are set they are returned verbatim;
otherwise every sample of every series is scanned, tracking the minimum
and/or maximum of the relevant coordinate starting from the sentinels
`f64::MAX` / `f64::MIN`, and each unset endpoint is replaced by its
scanned extreme. -/
def calc_axis_range (c : Chart) (is_x : Bool) : ℚ × ℚ :=
  let mm : Option ℚ × Option ℚ :=
    if is_x then (c.limits.x_min, c.limits.x_max)
    else (c.limits.y_min, c.limits.y_max)
  match mm with
  | (some mn, some mx) => (mn, mx)
  | (mn, mx) =>
      let find_min := mn.isNone
      let find_max := mx.isNone
      let scanned := c.data.foldl (fun acc ser =>
        ser.data.foldl (fun acc xy =>
          let v := if is_x then xy.1 else xy.2
          let vmin := if find_min ∧ v < acc.1 then v else acc.1
          let vmax := if find_max ∧ v > acc.2 then v else acc.2
          (vmin, vmax)) acc) (f64MAX, f64MIN)
      (mn.getD scanned.1, mx.getD scanned.2)

/-- `Chart::calc_axis_ranges`: the x range paired with the y range. -/
def calc_axis_ranges (c : Chart) : (ℚ × ℚ) × (ℚ × ℚ) :=
  (c.calc_axis_range true, c.calc_axis_range false)

/-- `Chart::update`: computes the axis ranges, then draws through
`BufferWindow::draw`.  The drawing closure issues only external
`plotters` calls against the byte buffer and never touches the series
data; its effect on the byte buffer is modelled by the opaque `render`
argument.  `now` is the wall-clock time sampled by the window's gate. -/
def update (c : Chart) (now : ℚ) (render : List Nat → List Nat) : Chart :=
  { c with window := c.window.draw now render }

end Chart

/-!
## Render-time sample mapping (chart.rs lines 428-457 and 486-515)

The per-sample coordinate mapping applied inside the drawing closure of
`Chart::update`.  `none : Option ℚ` models the `f64::NAN` the source
substitutes.  Line series map a sample's y through the
`y_log && b <= 0.0` test; point series (`Circle::new`) apply the scale
factors directly with no such test.
-/

/-- Mapping applied to each sample of a line series before drawing. -/
def line_map (y_log : Bool) (x_scale y_scale : ℚ) (ab : ℚ × ℚ) :
    ℚ × Option ℚ :=
  (ab.1 * x_scale,
    if y_log = true ∧ ab.2 ≤ 0 then none else some (ab.2 * y_scale))

/-- Mapping applied to each sample of a point series before drawing (the
centre passed to `Circle::new`); the y coordinate is always defined. -/
def point_map (x_scale y_scale : ℚ) (ab : ℚ × ℚ) : ℚ × Option ℚ :=
  (ab.1 * x_scale, some (ab.2 * y_scale))

/-!
## Derived views of the scan in `calc_axis_range`
-/

/-- The relevant coordinate of every sample of every series, in scan
order (the order `calc_axis_range` visits them). -/
def axis_vals (c : Chart) (is_x : Bool) : List ℚ :=
  (c.data.map (fun s => s.data.map (fun xy => if is_x then xy.1 else xy.2))).flatten

/-- The running-minimum scan of `calc_axis_range`, started at the
`f64::MAX` sentinel. -/
def scanMin (l : List ℚ) : ℚ :=
  l.foldl (fun m v => if v < m then v else m) f64MAX

/-- The running-maximum scan of `calc_axis_range`, started at the
`f64::MIN` sentinel. -/
def scanMax (l : List ℚ) : ℚ :=
  l.foldl (fun m v => if v > m then v else m) f64MIN

/-!
## Concrete fixtures used by the closed witness and counterexample
theorems
-/

/-- An open window with no pixels, an unthrottled gate. -/
def exWindowOpen : BufferWindow :=
  { is_open := true, buffer_u8 := [], buffer_u32 := [], dim := (0, 0)
    fps_skip := UpdateSkip.fromRate none, update_calls := 0 }

/-- An open 1-pixel window whose gate (target interval 1s) has just
fired at time 0. -/
def exWindowGated : BufferWindow :=
  { is_open := true, buffer_u8 := [10, 20, 30], buffer_u32 := [0]
    dim := (1, 1), fps_skip := { target_rate := some 1, prev_time := 0 }
    update_calls := 0 }

/-- A closed variant of `exWindowGated`. -/
def exWindowClosed : BufferWindow :=
  { exWindowGated with is_open := false }

/-- A line series holding the samples of the spec's axis-range example:
y-values 1, 5, -2. -/
def exSeriesA : Series :=
  { name := "A", color := (255, 0, 0), series_type := SeriesType.Line
    data := [(1, 1), (2, 5), (3, -2)] }

/-- A series with no samples. -/
def exSeriesEmpty : Series :=
  { name := "E", color := (0, 0, 255), series_type := SeriesType.Point
    data := [] }

/-- A one-sample line series, input of the `drop_back` underflow. -/
def exSeriesOne : Series :=
  { name := "O", color := (0, 0, 0), series_type := SeriesType.Line
    data := [(0, 0)] }

/-- Chart over `exSeriesA` with fully automatic limits. -/
def exChartAuto : Chart :=
  { window := exWindowOpen, data := [exSeriesA], data_limit := none
    x_label := "X", y_label := "Y", x_scale := 1, y_scale := 1
    y_log := false, limits := ⟨none, none, none, none⟩ }

/-- Chart over `exSeriesA` with `y_min = 0` configured, `y_max` unset. -/
def exChartYMin : Chart :=
  { exChartAuto with limits := ⟨none, none, some 0, none⟩ }

/-- Chart with one empty series and fully automatic limits. -/
def exChartEmpty : Chart :=
  { exChartAuto with data := [exSeriesEmpty] }

/-- A chart whose backend reports closed, holding one empty series. -/
def exChartClosed : Chart :=
  { exChartAuto with
    window := exWindowClosed
    data := [exSeriesEmpty] }

/-- An open chart with one empty series. -/
def exChartOpen : Chart :=
  { exChartAuto with data := [exSeriesEmpty] }

/-- Chart over `exSeriesA` with both y limits configured. -/
def exChartBothY : Chart :=
  { exChartAuto with limits := ⟨none, none, some 3, some 7⟩ }

/-- The sample list of `2^31` pushes (every sample `(0,0)`). -/
def bigInput : List (ℚ × ℚ) := List.replicate (2 ^ 31) (0, 0)

/-- The same chart with the backend's open flag replaced. -/
def setOpen (c : Chart) (b : Bool) : Chart :=
  { c with window := { c.window with is_open := b } }

/-!
## Helper lemmas
-/

/-- A sequence of `push` calls appends the pushed samples in order. -/
theorem foldl_push_data (xs : List (ℚ × ℚ)) (s : Series) :
    (xs.foldl Series.push s).data = s.data ++ xs := by
  induction xs generalizing s with
  | nil => simp
  | cons x xs ih => simp [ih, Series.push]

/-- The truncating cast is the identity on values below `2^31`. -/
theorem toI32_small {n : Nat} (h : n < 2 ^ 31) : toI32 n = (n : Int) := by
  simp only [toI32]
  split <;> omega

/-- `i32` wrapping is the identity inside the representable range. -/
theorem wrapI32_small {z : Int} (h1 : -2 ^ 31 ≤ z) (h2 : z < 2 ^ 31) :
    wrapI32 z = z := by
  unfold wrapI32
  omega

/-- On buffers and targets inside the `i32` range, `drop_front` drops
exactly the front overflow. -/
theorem drop_front_small (s : Series) (targ : Nat)
    (hlen : s.data.length < 2 ^ 31) (ht : targ < 2 ^ 31) :
    (s.drop_front targ).data = s.data.drop (s.data.length - targ) := by
  have hd : (wrapI32 (toI32 s.data.length - toI32 targ)).toNat =
      s.data.length - targ := by
    rw [toI32_small hlen, toI32_small ht, wrapI32_small (by omega) (by omega)]
    omega
  simp only [Series.drop_front, hd]

/-- A rejected gate call leaves the gate state unchanged. -/
theorem update_reject {g : UpdateSkip} {now : ℚ}
    (h : (g.update now).1 = false) : (g.update now).2 = g := by
  unfold UpdateSkip.update at h ⊢
  cases hr : g.target_rate with
  | none => simp [hr] at h
  | some rate =>
      simp only [hr] at h ⊢
      by_cases hc : now - g.prev_time ≥ rate
      · rw [if_pos hc] at h
        simp at h
      · rw [if_neg hc]

/-- Zipping with a function that ignores its second argument is a map,
when the lengths agree. -/
theorem zipWith_const_right {α β γ : Type} (f : α → γ) :
    ∀ (l1 : List α) (l2 : List β), l1.length = l2.length →
      List.zipWith (fun a _ => f a) l1 l2 = l1.map f
  | [], [], _ => rfl
  | [], _ :: _, h => by simp at h
  | _ :: _, [], h => by simp at h
  | a :: l1, b :: l2, h => by
      simp only [List.zipWith_cons_cons, List.map_cons]
      exact congrArg _ (zipWith_const_right f l1 l2 (by simpa using h))

/-- When the packed buffer has exactly one word per byte triple,
`transfer_buffer` is the packing map over the triples. -/
theorem transfer_buffer_eq_map (b8 b32 : List Nat)
    (h : (chunks3 b8).length = b32.length) :
    transfer_buffer b8 b32 =
      (chunks3 b8).map (fun c => from_u8arr_rgb c.1 c.2.1 c.2.2) := by
  unfold transfer_buffer
  rw [h, List.drop_length, List.append_nil]
  exact zipWith_const_right _ (chunks3 b8) b32 h

/-- Number of byte triples produced by `chunks(3)`. -/
theorem chunks3_length : ∀ l : List Nat, (chunks3 l).length = l.length / 3
  | [] => by simp [chunks3]
  | [_] => by simp [chunks3]
  | [_, _] => by simp [chunks3]
  | r :: g :: b :: rest => by
      simp only [chunks3, List.length_cons]
      rw [chunks3_length rest]
      omega

/-- The `i`-th byte triple of `chunks(3)` consists of the bytes at
positions `3i`, `3i+1`, `3i+2`. -/
theorem chunks3_getD : ∀ (l : List Nat) (i : Nat), 3 * i + 2 < l.length →
    (chunks3 l).getD i (0, 0, 0) =
      (l.getD (3 * i) 0, l.getD (3 * i + 1) 0, l.getD (3 * i + 2) 0)
  | [], i, h => by simp at h
  | [_], i, h => by
      simp only [List.length_cons, List.length_nil] at h
      omega
  | [_, _], i, h => by
      simp only [List.length_cons, List.length_nil] at h
      omega
  | r :: g :: b :: rest, 0, _ => by simp [chunks3]
  | r :: g :: b :: rest, i + 1, h => by
      have h' : 3 * i + 2 < rest.length := by
        simp only [List.length_cons] at h
        omega
      have e3 : 3 * (i + 1) = 3 * i + 2 + 1 := by omega
      simp only [chunks3, List.getD_cons_succ, e3]
      rw [chunks3_getD rest i h']

/-- Packing a byte triple is plain positional arithmetic as long as the
two low channels are bytes. -/
theorem from_u8arr_rgb_eq {g b : Nat} (r : Nat)
    (hg : g < 2 ^ 8) (hb : b < 2 ^ 8) :
    from_u8arr_rgb r g b = r * 2 ^ 16 + g * 2 ^ 8 + b := by
  unfold from_u8arr_rgb
  have hlor : ∀ x y : Nat, Nat.lor x y = x ||| y := fun _ _ => rfl
  have hshl : ∀ x y : Nat, Nat.shiftLeft x y = x * 2 ^ y := fun x y =>
    Nat.shiftLeft_eq x y
  rw [hshl, hshl, hlor, hlor]
  have h1 : g * 2 ^ 8 < 2 ^ 16 := by omega
  have e1 : r * 2 ^ 16 ||| g * 2 ^ 8 = 2 ^ 16 * r + g * 2 ^ 8 := by
    rw [Nat.mul_comm r]
    exact (Nat.mul_add_lt_is_or h1 r).symm
  rw [e1]
  have e2 : (2 : Nat) ^ 16 * r + g * 2 ^ 8 = 2 ^ 8 * (2 ^ 8 * r + g) := by ring
  rw [e2, ← Nat.mul_add_lt_is_or hb]
  ring

/-- Folding a componentwise pair update is the pair of the component
folds. -/
theorem foldl_pair_split {α : Type} (f g : ℚ → α → ℚ) :
    ∀ (l : List α) (a b : ℚ),
      l.foldl (fun acc v => (f acc.1 v, g acc.2 v)) (a, b) =
        (l.foldl f a, l.foldl g b)
  | [], _, _ => rfl
  | x :: l, a, b => by
      simp only [List.foldl_cons]
      exact foldl_pair_split f g l (f a x) (g b x)

/-- Folding a function that ignores the list elements returns the seed. -/
theorem foldl_const {α : Type} :
    ∀ (l : List α) (b : ℚ), l.foldl (fun m _ => m) b = b
  | [], _ => rfl
  | _ :: l, b => foldl_const l b

/-- The nested per-series scan of `calc_axis_range` is a fold over the
flattened coordinate list. -/
theorem nested_scan_eq {β : Type} (L : List Series) (coord : ℚ × ℚ → ℚ)
    (step : β → ℚ → β) (init : β) :
    L.foldl (fun acc ser =>
        ser.data.foldl (fun acc xy => step acc (coord xy)) acc) init =
      ((L.map (fun s => s.data.map coord)).flatten).foldl step init := by
  rw [List.foldl_flatten, List.foldl_map]
  simp only [List.foldl_map]

/-- When every series is empty, the coordinate list of the scan is
empty. -/
theorem axis_vals_nil (c : Chart) (is_x : Bool)
    (h : ∀ s ∈ c.data, s.data = []) : axis_vals c is_x = [] := by
  unfold axis_vals
  have hgen : ∀ L : List Series, (∀ s ∈ L, s.data = []) →
      (L.map (fun s =>
        s.data.map (fun xy => if is_x then xy.1 else xy.2))).flatten = [] := by
    intro L
    induction L with
    | nil => intro _; rfl
    | cons s L ih =>
        intro hL
        have hs : s.data = [] := hL s (List.mem_cons_self s L)
        simp only [List.map_cons, List.flatten_cons, hs, List.map_nil,
          List.nil_append]
        exact ih (fun t ht => hL t (List.mem_cons_of_mem s ht))
  exact hgen c.data h

/-- Both limits configured: `calc_axis_range` returns them verbatim. -/
theorem calc_axis_verbatim (c : Chart) (is_x : Bool) (a b : ℚ)
    (h : (if is_x then (c.limits.x_min, c.limits.x_max)
        else (c.limits.y_min, c.limits.y_max)) = (some a, some b)) :
    c.calc_axis_range is_x = (a, b) := by
  unfold Chart.calc_axis_range
  rw [h]

/-- Unset minimum: the first component of `calc_axis_range` is the
running-minimum scan of all relevant coordinates. -/
theorem calc_axis_min_none (c : Chart) (is_x : Bool)
    (h : (if is_x then c.limits.x_min else c.limits.y_min) = none) :
    (c.calc_axis_range is_x).1 = scanMin (axis_vals c is_x) := by
  cases is_x with
  | false =>
      simp at h
      cases hmx : c.limits.y_max with
      | none =>
          simp only [Chart.calc_axis_range, h, hmx, Bool.false_eq_true,
            if_false, Option.isNone_none, Option.getD_none, true_and]
          rw [nested_scan_eq c.data (fun xy => xy.2)
            (fun acc v => (if v < acc.1 then v else acc.1,
              if v > acc.2 then v else acc.2)) (f64MAX, f64MIN),
            foldl_pair_split (fun m v => if v < m then v else m)
              (fun m v => if v > m then v else m)]
          simp only [scanMin, axis_vals, Bool.false_eq_true, if_false]
      | some b =>
          simp only [Chart.calc_axis_range, h, hmx, Bool.false_eq_true,
            if_false, Option.isNone_none, Option.isNone_some,
            Option.getD_none, true_and, Bool.false_eq_true, false_and,
            if_false]
          rw [nested_scan_eq c.data (fun xy => xy.2)
            (fun acc v => (if v < acc.1 then v else acc.1, acc.2))
              (f64MAX, f64MIN),
            foldl_pair_split (fun m v => if v < m then v else m)
              (fun m _ => m)]
          simp only [scanMin, axis_vals, Bool.false_eq_true, if_false]
  | true =>
      simp at h
      cases hmx : c.limits.x_max with
      | none =>
          simp only [Chart.calc_axis_range, h, hmx, if_true,
            Option.isNone_none, Option.getD_none, true_and]
          rw [nested_scan_eq c.data (fun xy => xy.1)
            (fun acc v => (if v < acc.1 then v else acc.1,
              if v > acc.2 then v else acc.2)) (f64MAX, f64MIN),
            foldl_pair_split (fun m v => if v < m then v else m)
              (fun m v => if v > m then v else m)]
          simp only [scanMin, axis_vals, if_true]
      | some b =>
          simp only [Chart.calc_axis_range, h, hmx, if_true,
            Option.isNone_none, Option.isNone_some, Option.getD_none,
            true_and, Bool.false_eq_true, false_and, if_false]
          rw [nested_scan_eq c.data (fun xy => xy.1)
            (fun acc v => (if v < acc.1 then v else acc.1, acc.2))
              (f64MAX, f64MIN),
            foldl_pair_split (fun m v => if v < m then v else m)
              (fun m _ => m)]
          simp only [scanMin, axis_vals, if_true]

/-- Unset maximum: the second component of `calc_axis_range` is the
running-maximum scan of all relevant coordinates. -/
theorem calc_axis_max_none (c : Chart) (is_x : Bool)
    (h : (if is_x then c.limits.x_max else c.limits.y_max) = none) :
    (c.calc_axis_range is_x).2 = scanMax (axis_vals c is_x) := by
  cases is_x with
  | false =>
      simp at h
      cases hmn : c.limits.y_min with
      | none =>
          simp only [Chart.calc_axis_range, h, hmn, Bool.false_eq_true,
            if_false, Option.isNone_none, Option.getD_none, true_and]
          rw [nested_scan_eq c.data (fun xy => xy.2)
            (fun acc v => (if v < acc.1 then v else acc.1,
              if v > acc.2 then v else acc.2)) (f64MAX, f64MIN),
            foldl_pair_split (fun m v => if v < m then v else m)
              (fun m v => if v > m then v else m)]
          simp only [scanMax, axis_vals, Bool.false_eq_true, if_false]
      | some a =>
          simp only [Chart.calc_axis_range, h, hmn, Bool.false_eq_true,
            if_false, Option.isNone_none, Option.isNone_some,
            Option.getD_none, true_and, false_and, if_false]
          rw [nested_scan_eq c.data (fun xy => xy.2)
            (fun acc v => (acc.1, if v > acc.2 then v else acc.2))
              (f64MAX, f64MIN),
            foldl_pair_split (fun m _ => m)
              (fun m v => if v > m then v else m)]
          simp only [scanMax, axis_vals, Bool.false_eq_true, if_false]
  | true =>
      simp at h
      cases hmn : c.limits.x_min with
      | none =>
          simp only [Chart.calc_axis_range, h, hmn, if_true,
            Option.isNone_none, Option.getD_none, true_and]
          rw [nested_scan_eq c.data (fun xy => xy.1)
            (fun acc v => (if v < acc.1 then v else acc.1,
              if v > acc.2 then v else acc.2)) (f64MAX, f64MIN),
            foldl_pair_split (fun m v => if v < m then v else m)
              (fun m v => if v > m then v else m)]
          simp only [scanMax, axis_vals, if_true]
      | some a =>
          simp only [Chart.calc_axis_range, h, hmn, if_true,
            Option.isNone_none, Option.isNone_some, Option.getD_none,
            true_and, Bool.false_eq_true, false_and, if_false]
          rw [nested_scan_eq c.data (fun xy => xy.1)
            (fun acc v => (acc.1, if v > acc.2 then v else acc.2))
              (f64MAX, f64MIN),
            foldl_pair_split (fun m _ => m)
              (fun m v => if v > m then v else m)]
          simp only [scanMax, axis_vals, if_true]

/-!
## Claim theorems
-/

/-- C1 counterexample: a rate gate freshly constructed with target
interval `T = 1` REJECTS its first call at timestamp `0.0` (the claimed
trace `true,false,false,true,false` for calls at `0.0,0.4,0.9,1.1,1.6`
is wrong in its first entry: the constructor initialises the last fire
time to `0.0`, so the first call sees a zero delta). -/
theorem C1_counterexample :
    UpdateSkip.run (UpdateSkip.fromRate (some 1))
        [0, 2 / 5, 9 / 10, 11 / 10, 8 / 5] =
      [false, false, false, true, false] ∧
    ([false, false, false, true, false] : List Bool) ≠
      [true, false, false, true, false] := by
  constructor
  · norm_num [UpdateSkip.run, UpdateSkip.update, UpdateSkip.fromRate]
  · decide

/-- C1 (amended): a fresh gate behaves as if it last fired at time 0:
`admit(now)` returns true iff `now` minus the last accepted timestamp
(initially `0.0`) is at least the target interval, updating the stored
timestamp exactly on acceptance; consequently with `T = 1.0` and calls
at `0.0, 0.4, 0.9, 1.1, 1.6` the results are
`false, false, false, true, false`. -/
theorem C1_rate_gate_amended :
    (∀ T : ℚ, (UpdateSkip.fromRate (some T)).prev_time = 0) ∧
    (∀ T prev now : ℚ,
      ((UpdateSkip.update ⟨some T, prev⟩ now).1 = true ↔ now - prev ≥ T) ∧
      (UpdateSkip.update ⟨some T, prev⟩ now).2.prev_time =
        (if now - prev ≥ T then now else prev)) ∧
    UpdateSkip.run (UpdateSkip.fromRate (some 1))
        [0, 2 / 5, 9 / 10, 11 / 10, 8 / 5] =
      [false, false, false, true, false] := by
  refine ⟨fun T => rfl, fun T prev now => ?_,
    by norm_num [UpdateSkip.run, UpdateSkip.update, UpdateSkip.fromRate]⟩
  by_cases hc : now - prev ≥ T
  · simp [UpdateSkip.update, hc]
  · simp [UpdateSkip.update, hc]

/-- C1 witness: at a concrete admitted call (`T = 1`, last fire `0`,
`now = 3`) the gate returns true. -/
theorem C1_rate_gate_amended_witness :
    (UpdateSkip.update ⟨some 1, 0⟩ (3 : ℚ)).1 = true :=
  (C1_rate_gate_amended.2.1 1 0 3).1.mpr (by norm_num)

/-- C2 counterexample: on a chart whose backend reports closed, a
`push_row` with mismatched y-length is a silent drop — no error is
signalled (the source returns early before the length check) — so the
claim's "always signalled" fails; the series are indeed unchanged. -/
theorem C2_counterexample :
    exChartClosed.window.is_open = false ∧
    exChartClosed.data.length ≠ ([] : List ℚ).length ∧
    (exChartClosed.push_time_series 0 []).1 = none ∧
    (exChartClosed.push_time_series 0 []).2 = exChartClosed := by
  refine ⟨rfl, by decide, rfl, rfl⟩

/-- C2 (amended): when the window is open, `push_row` with a y-length
different from the series count panics with the length-mismatch message
before touching any series (the state at the panic point is the
original chart); when the window is closed the call silently does
nothing, whatever the lengths. -/
theorem C2_push_row_amended :
    ∀ (c : Chart) (t : ℚ) (y : List ℚ),
      (c.window.is_open = true → c.data.length ≠ y.length →
        c.push_time_series t y =
          (some "Length of y must be equaltu number of series!", c)) ∧
      (c.window.is_open = false → c.push_time_series t y = (none, c)) := by
  intro c t y
  constructor
  · intro hopen hlen
    simp [Chart.push_time_series, hopen, hlen]
  · intro hclosed
    simp [Chart.push_time_series, hclosed]

/-- C2 witness: a concrete open chart with one series rejects an empty
y-row with the panic message, state untouched. -/
theorem C2_push_row_amended_witness :
    exChartOpen.push_time_series 0 [] =
      (some "Length of y must be equaltu number of series!", exChartOpen) :=
  (C2_push_row_amended exChartOpen 0 []).1 rfl (by decide)

/-- C3 counterexample: `push_point` on a chart whose backend reports
closed still mutates the series data (the source has no open-check in
`push_xy`), so "every subsequent operation is a no-op" fails. -/
theorem C3_counterexample :
    exChartClosed.window.is_open = false ∧
    (exChartClosed.data.getD 0 exSeriesEmpty).data = [] ∧
    (((exChartClosed.push_xy 0 (1, 2)).2).data.getD 0 exSeriesEmpty).data =
      [(1, 2)] := by
  refine ⟨rfl, rfl, by decide⟩

/-- C3 (amended): once the backend reports closed, `render`/`update` and
`push_row` are permanent no-ops (no buffer mutation, no backend call, no
error); but `push_point` and `replace_series` are not gated on the
window state at all — they behave identically on open and closed charts,
mutating series data even after close. -/
theorem C3_closed_amended :
    (∀ (c : Chart) (now : ℚ) (render : List Nat → List Nat),
        c.window.is_open = false → c.update now render = c) ∧
    (∀ (c : Chart) (t : ℚ) (y : List ℚ),
        c.window.is_open = false → c.push_time_series t y = (none, c)) ∧
    (∀ (c : Chart) (b : Bool) (i : Nat) (xy : ℚ × ℚ),
        (setOpen c b).push_xy i xy =
          ((c.push_xy i xy).1, setOpen (c.push_xy i xy).2 b)) ∧
    (∀ (c : Chart) (b : Bool) (i : Nat) (s : List (ℚ × ℚ)),
        (setOpen c b).replace_series i s =
          ((c.replace_series i s).1, setOpen (c.replace_series i s).2 b)) := by
  refine ⟨?_, ?_, ?_, ?_⟩
  · intro c now render h
    simp [Chart.update, BufferWindow.draw, h]
  · intro c t y h
    simp [Chart.push_time_series, h]
  · intro c b i xy
    by_cases h : i < c.data.length
    · simp [Chart.push_xy, setOpen, h]
    · simp [Chart.push_xy, setOpen, h]
  · intro c b i s
    by_cases h : i < c.data.length
    · simp [Chart.replace_series, setOpen, h]
    · simp [Chart.replace_series, setOpen, h]

/-- C3 witness: on the concrete closed chart, `update` and a mismatched
`push_row` are both no-ops. -/
theorem C3_closed_amended_witness :
    exChartClosed.update 0 id = exChartClosed ∧
    exChartClosed.push_time_series 0 [] = (none, exChartClosed) :=
  ⟨C3_closed_amended.1 exChartClosed 0 id rfl,
   C3_closed_amended.2.1 exChartClosed 0 [] rfl⟩

/-- C4 counterexample: under `y_log`, the sample `(1, -1)` is mapped to
NaN (undefined) by the line-series mapping but to the perfectly defined
point `(1, -1)` by the point-series mapping (`Circle::new` applies the
scale factors with no `<= 0` test), so the claim fails for point
series. -/
theorem C4_counterexample :
    line_map true 1 1 (1, -1) = (1, none) ∧
    point_map 1 1 (1, -1) = (1, some (-1)) ∧
    (point_map 1 1 (1, -1)).2 ≠ none := by
  refine ⟨by norm_num [line_map], by norm_num [point_map], by simp [point_map]⟩

/-- C4 (amended): when `y_log` is set, every LINE-series sample with
y ≤ 0 is mapped to NaN (undefined) during render, and samples with
y > 0 keep their scaled value; POINT-series samples are never remapped —
their scaled y is passed through even when ≤ 0; the render pass leaves
the stored series data and the configured limits untouched. -/
theorem C4_ylog_amended :
    (∀ (x_scale y_scale : ℚ) (ab : ℚ × ℚ), ab.2 ≤ 0 →
        line_map true x_scale y_scale ab = (ab.1 * x_scale, none)) ∧
    (∀ (x_scale y_scale : ℚ) (ab : ℚ × ℚ), 0 < ab.2 →
        line_map true x_scale y_scale ab =
          (ab.1 * x_scale, some (ab.2 * y_scale))) ∧
    (∀ (x_scale y_scale : ℚ) (ab : ℚ × ℚ),
        point_map x_scale y_scale ab =
          (ab.1 * x_scale, some (ab.2 * y_scale))) ∧
    (∀ (c : Chart) (now : ℚ) (render : List Nat → List Nat),
        (c.update now render).data = c.data ∧
        (c.update now render).limits = c.limits) := by
  refine ⟨?_, ?_, fun _ _ _ => rfl, fun c now render => ⟨rfl, rfl⟩⟩
  · intro xs ys ab h
    simp [line_map, h]
  · intro xs ys ab h
    simp [line_map, not_le.mpr h]

/-- C4 witness: the concrete sample `(2, -3)` is undefined under the
log-axis line mapping. -/
theorem C4_ylog_amended_witness :
    line_map true 1 1 (2, -3) = (2 * 1, none) :=
  C4_ylog_amended.1 1 1 (2, -3) (by norm_num)

/-- C6 counterexample: after `2^31` pushes, `enforce_cap 0` keeps all
`2^31` samples instead of the claimed `min(2^31, 0) = 0`: the length is
truncated by the `as i32` cast to the negative value `-2^31`, so the
drop loop never runs. -/
theorem C6_counterexample :
    ((bigInput.foldl Series.push exSeriesEmpty).drop_front 0).data.length =
      2 ^ 31 ∧
    (2 ^ 31 : Nat) ≠ min (2 ^ 31) 0 := by
  have hdata : (bigInput.foldl Series.push exSeriesEmpty).data = bigInput := by
    rw [foldl_push_data]
    simp [exSeriesEmpty]
  have hlen : bigInput.length = 2 ^ 31 := by rw [bigInput, List.length_replicate]
  have h1 : (wrapI32 (toI32 (2 ^ 31) - toI32 0)).toNat = 0 := by decide
  constructor
  · simp only [Series.drop_front, hdata, hlen, h1, List.drop_zero]
  · decide

/-- C6 (amended): for every sequence of `n < 2^31` pushes into an empty
series and every cap `k < 2^31`, `enforce_cap k` leaves exactly the last
`min(n, k)` pushed samples in their original order (the suffix of the
pushed list), and is a no-op when `k ≥ n`.  (With `2^31` or more samples
the `as i32` length cast wraps and the cap is not enforced.) -/
theorem C6_enforce_cap_amended :
    ∀ (s0 : Series) (xs : List (ℚ × ℚ)) (k : Nat),
      s0.data = [] → xs.length < 2 ^ 31 → k < 2 ^ 31 →
      ((xs.foldl Series.push s0).drop_front k).data.length =
          min xs.length k ∧
      ((xs.foldl Series.push s0).drop_front k).data =
          xs.drop (xs.length - k) ∧
      (xs.length ≤ k → ((xs.foldl Series.push s0).drop_front k).data = xs) := by
  intro s0 xs k h0 hn hk
  have hdata : (xs.foldl Series.push s0).data = xs := by
    rw [foldl_push_data, h0, List.nil_append]
  have hlen : (xs.foldl Series.push s0).data.length = xs.length := by
    rw [hdata]
  have hdrop := drop_front_small (xs.foldl Series.push s0) k
    (by rw [hlen]; exact hn) hk
  rw [hdrop, hdata]
  refine ⟨?_, rfl, ?_⟩
  · rw [List.length_drop]
    omega
  · intro h
    have hz : xs.length - k = 0 := by omega
    rw [hz, List.drop_zero]

/-- C6 witness: pushing three samples then capping at 2 keeps the last
two in order. -/
theorem C6_enforce_cap_amended_witness :
    ((([((1 : ℚ), (1 : ℚ)), (2, 2), (3, 3)]).foldl Series.push
        exSeriesEmpty).drop_front 2).data = [(2, 2), (3, 3)] := by
  have h := C6_enforce_cap_amended exSeriesEmpty
    [((1 : ℚ), (1 : ℚ)), (2, 2), (3, 3)] 2 rfl (by norm_num) (by norm_num)
  simpa using h.2.1

/-- C7: `BufferWindow::draw` is a no-op — same buffers, same gate state,
no backend update call, no error — when the backend reports closed, and
likewise when the backend is open but the skip gate rejects the frame;
in both cases the drawing closure's effect never reaches the window. -/
theorem C7_scoped_draw_noop :
    ∀ (w : BufferWindow) (now : ℚ) (draw_fn : List Nat → List Nat),
      (w.is_open = false → w.draw now draw_fn = w) ∧
      (w.is_open = true → (w.fps_skip.update now).1 = false →
        w.draw now draw_fn = w) := by
  intro w now f
  constructor
  · intro h
    simp [BufferWindow.draw, h]
  · intro ho hr
    simp only [BufferWindow.draw, ho, if_true, hr, update_reject hr,
      Bool.false_eq_true, if_false]
    rw [← ho]

/-- C7 witness: the concrete closed window is untouched by `draw`, and
so is the concrete open window whose gate rejects at time 1/2. -/
theorem C7_scoped_draw_noop_witness :
    exWindowClosed.draw 5 id = exWindowClosed ∧
    exWindowGated.draw (1 / 2) id = exWindowGated := by
  constructor
  · exact (C7_scoped_draw_noop exWindowClosed 5 id).1 rfl
  · refine (C7_scoped_draw_noop exWindowGated (1 / 2) id).2 rfl ?_
    norm_num [UpdateSkip.update, exWindowGated]

/-- C8: the code slip behind the claim — `drop_back` with a target
length larger than the current length is NOT a no-op: the `usize`
subtraction `len - targ_len` underflows (panicking in debug builds;
wrapping to `2^64 - 1` in release builds, whereupon the pop loop empties
the whole buffer).  Evaluated at the failing input: a one-sample series
truncated to target length 2 loses its sample. -/
theorem C8_drop_back_bug :
    exSeriesOne.data = [((0 : ℚ), (0 : ℚ))] ∧
    subUsize exSeriesOne.data.length 2 = 2 ^ 64 - 1 ∧
    (exSeriesOne.drop_back 2).data = [] ∧
    (exSeriesOne.drop_back 2).data ≠ exSeriesOne.data := by
  have h : subUsize 1 2 = 2 ^ 64 - 1 := by decide
  refine ⟨rfl, h, ?_, ?_⟩
  · simp [Series.drop_back, exSeriesOne, h]
  · simp [Series.drop_back, exSeriesOne, h]

/-- C5: per-axis range computation — if both user limits of an axis are
configured they are returned verbatim whatever the data; otherwise the
samples of every series are scanned once and each unconfigured endpoint
is replaced by the scanned extreme of the relevant coordinate; on the
spec's example (y-values 1, 5, -2) the automatic y range is `(-2, 5)`,
and with `y_min = 0` configured it is `(0, 5)`. -/
theorem C5_axis_range :
    (∀ (c : Chart) (a b : ℚ), c.limits.x_min = some a →
        c.limits.x_max = some b → c.calc_axis_range true = (a, b)) ∧
    (∀ (c : Chart) (a b : ℚ), c.limits.y_min = some a →
        c.limits.y_max = some b → c.calc_axis_range false = (a, b)) ∧
    (∀ c : Chart, c.limits.y_min = none →
        (c.calc_axis_range false).1 = scanMin (axis_vals c false)) ∧
    (∀ c : Chart, c.limits.y_max = none →
        (c.calc_axis_range false).2 = scanMax (axis_vals c false)) ∧
    (∀ c : Chart, c.limits.x_min = none →
        (c.calc_axis_range true).1 = scanMin (axis_vals c true)) ∧
    (∀ c : Chart, c.limits.x_max = none →
        (c.calc_axis_range true).2 = scanMax (axis_vals c true)) ∧
    exChartAuto.calc_axis_range false = (-2, 5) ∧
    exChartYMin.calc_axis_range false = (0, 5) := by
  refine ⟨?_, ?_, ?_, ?_, ?_, ?_, ?_, ?_⟩
  · intro c a b h1 h2
    exact calc_axis_verbatim c true a b (by simp [h1, h2])
  · intro c a b h1 h2
    exact calc_axis_verbatim c false a b (by simp [h1, h2])
  · intro c h
    exact calc_axis_min_none c false (by simp [h])
  · intro c h
    exact calc_axis_max_none c false (by simp [h])
  · intro c h
    exact calc_axis_min_none c true (by simp [h])
  · intro c h
    exact calc_axis_max_none c true (by simp [h])
  · norm_num [Chart.calc_axis_range, exChartAuto, exSeriesA, f64MAX, f64MIN]
  · norm_num [Chart.calc_axis_range, exChartYMin, exChartAuto, exSeriesA,
      f64MAX, f64MIN]

/-- C5 witness: a chart with both y limits set gets them verbatim, and
the fully automatic chart's y minimum is the scanned minimum. -/
theorem C5_axis_range_witness :
    exChartBothY.calc_axis_range false = (3, 7) ∧
    (exChartAuto.calc_axis_range false).1 =
      scanMin (axis_vals exChartAuto false) :=
  ⟨C5_axis_range.2.1 exChartBothY 3 7 rfl rfl,
   C5_axis_range.2.2.1 exChartAuto rfl⟩

/-- C10: with every series empty, the scan never updates its sentinels,
so each unconfigured endpoint of `calc_axis_range` comes back as the
sentinel: `f64::MAX` for an unset minimum and `f64::MIN` for an unset
maximum — a fully automatic axis over no data yields the degenerate
range `(f64::MAX, f64::MIN)`, not a documented fallback. -/
theorem C10_empty_sentinel :
    ∀ c : Chart, (∀ s ∈ c.data, s.data = []) →
      (c.limits.y_min = none → (c.calc_axis_range false).1 = f64MAX) ∧
      (c.limits.y_max = none → (c.calc_axis_range false).2 = f64MIN) ∧
      (c.limits.x_min = none → (c.calc_axis_range true).1 = f64MAX) ∧
      (c.limits.x_max = none → (c.calc_axis_range true).2 = f64MIN) := by
  intro c hc
  refine ⟨?_, ?_, ?_, ?_⟩
  · intro h
    rw [calc_axis_min_none c false (by simp [h]), axis_vals_nil c false hc]
    rfl
  · intro h
    rw [calc_axis_max_none c false (by simp [h]), axis_vals_nil c false hc]
    rfl
  · intro h
    rw [calc_axis_min_none c true (by simp [h]), axis_vals_nil c true hc]
    rfl
  · intro h
    rw [calc_axis_max_none c true (by simp [h]), axis_vals_nil c true hc]
    rfl

/-- C10 witness: the concrete empty-series chart yields the degenerate
sentinel range on both axes. -/
theorem C10_empty_sentinel_witness :
    (exChartEmpty.calc_axis_range false).1 = f64MAX ∧
    (exChartEmpty.calc_axis_range true).2 = f64MIN := by
  have h := C10_empty_sentinel exChartEmpty (by
    intro s hs
    simp only [exChartEmpty, exChartAuto, List.mem_singleton] at hs
    rw [hs]
    rfl)
  exact ⟨h.1 rfl, h.2.2.2 rfl⟩

/-- C9: the packed word of a byte triple `(r,g,b)` is exactly
`(r<<16)|(g<<8)|b`, which for bytes equals `r*2^16 + g*2^8 + b` and is
losslessly decodable; after a successful draw the packed buffer is the
packing map over the byte triples of the freshly drawn byte buffer, and
the `i`-th packed word corresponds to bytes `3i, 3i+1, 3i+2`; the triple
`(10,20,30)` packs to `10<<16 | 20<<8 | 30`. -/
theorem C9_packing :
    (∀ r g b : Nat, g < 2 ^ 8 → b < 2 ^ 8 →
        from_u8arr_rgb r g b = r * 2 ^ 16 + g * 2 ^ 8 + b) ∧
    (∀ r g b : Nat, r < 2 ^ 8 → g < 2 ^ 8 → b < 2 ^ 8 →
        unpack_rgb (from_u8arr_rgb r g b) = (r, g, b)) ∧
    from_u8arr_rgb 10 20 30 = 10 * 2 ^ 16 + 20 * 2 ^ 8 + 30 ∧
    (∀ (w : BufferWindow) (now : ℚ) (draw_fn : List Nat → List Nat),
        w.is_open = true → (w.fps_skip.update now).1 = true →
        (chunks3 (draw_fn w.buffer_u8)).length = w.buffer_u32.length →
        (w.draw now draw_fn).buffer_u8 = draw_fn w.buffer_u8 ∧
        (w.draw now draw_fn).buffer_u32 =
          (chunks3 (draw_fn w.buffer_u8)).map
            (fun c => from_u8arr_rgb c.1 c.2.1 c.2.2)) ∧
    (∀ (b8 b32 : List Nat) (i : Nat),
        (chunks3 b8).length = b32.length → 3 * i + 2 < b8.length →
        (transfer_buffer b8 b32).getD i 0 =
          from_u8arr_rgb (b8.getD (3 * i) 0) (b8.getD (3 * i + 1) 0)
            (b8.getD (3 * i + 2) 0)) := by
  refine ⟨?_, ?_, by decide, ?_, ?_⟩
  · intro r g b hg hb
    exact from_u8arr_rgb_eq r hg hb
  · intro r g b hr hg hb
    rw [from_u8arr_rgb_eq r hg hb]
    simp only [unpack_rgb, Prod.mk.injEq]
    refine ⟨?_, ?_, ?_⟩ <;> omega
  · intro w now f ho hr hlen
    constructor
    · simp only [BufferWindow.draw, ho, if_true, hr]
    · simp only [BufferWindow.draw, ho, if_true, hr]
      exact transfer_buffer_eq_map _ _ hlen
  · intro b8 b32 i hlen hi
    have hic : i < (chunks3 b8).length := by
      rw [chunks3_length]
      omega
    rw [transfer_buffer_eq_map _ _ hlen, List.getD_eq_getElem?_getD,
      List.getElem?_map, List.getElem?_eq_getElem hic]
    simp only [Option.map_some', Option.getD_some]
    have hc := chunks3_getD b8 i hi
    rw [List.getD_eq_getElem?_getD, List.getElem?_eq_getElem hic,
      Option.getD_some] at hc
    rw [hc]

/-- C9 witness: drawing the open gated window at time 2 repacks its
byte triple, and the concrete triple decodes losslessly. -/
theorem C9_packing_witness :
    (exWindowGated.draw 2 id).buffer_u32 =
      (chunks3 (id exWindowGated.buffer_u8)).map
        (fun c => from_u8arr_rgb c.1 c.2.1 c.2.2) ∧
    unpack_rgb (from_u8arr_rgb 10 20 30) = (10, 20, 30) := by
  constructor
  · exact (C9_packing.2.2.2.1 exWindowGated 2 id rfl
      (by norm_num [UpdateSkip.update, exWindowGated]) (by decide)).2
  · exact C9_packing.2.1 10 20 30 (by norm_num) (by norm_num) (by norm_num)

end EasyGraph
